import Mathlib

/-!
# Verification of the animated scene lifecycle in `src/my-threejs-app/src/App.vue`

Shallow embedding of the single Vue component of this repository.  The
component holds a handful of nullable references (`scene`, `camera`,
`renderer`, three named mesh handles, `animationFrameId`); the operations
are `initThree` (scene construction plus the GLTF loader's success /
error callbacks), `handleResize`, the per-frame callback `animate`, and
the `onUnmounted` teardown.

Modelling choices:
* A nullable reference `shallowRef<T | null>` becomes `Option T`.
* JavaScript numbers are modelled by exact rationals `ℚ`.  The literal
  `Math.PI` is the IEEE-754 double closest to π, which is the exact
  rational `884279719003555 / 2^48`; the literals `0.005` and `0.05`
  become `5/1000` and `5/100`.  Subsequent arithmetic is taken exact
  (the usual idealisation of float arithmetic); every comparison the
  claims depend on sits at distance ≥ 7·10⁻⁴ from the clamp threshold,
  far above any double rounding effect of this computation.
* `requestAnimationFrame` is modelled by handing out the next frame id
  from a counter `nextFrameId` and storing it in `animationFrameId`;
  `renderer.render` is modelled by incrementing a `drawCalls` counter.
* The GLTF scene graph is a list of nodes, each either a mesh (the only
  case the traversal callback acts on, guarded by `instanceof THREE.Mesh`
  in the source) or some other node kind.
-/

/-- A mesh node of the loaded GLTF graph: its name, the x component of its
rotation, and the two shadow flags the traversal callback sets. -/
structure MeshNode where
  name : String
  rotationX : ℚ
  castShadow : Bool
  receiveShadow : Bool
deriving DecidableEq, Repr

/-- A node of the loaded GLTF graph.  The traversal callback only acts on
nodes that are meshes (`node instanceof THREE.Mesh`); every other node kind
is collapsed into `other`. -/
inductive GLTFNode where
  | mesh (m : MeshNode)
  | other
deriving DecidableEq, Repr

/-- The perspective camera: only its mutable aspect ratio matters to the
claims. -/
structure Camera where
  aspect : ℚ
deriving DecidableEq, Repr

/-- The WebGL renderer: its drawing-buffer size and pixel ratio. -/
structure Renderer where
  width : ℚ
  height : ℚ
  pixelRatio : ℚ
deriving DecidableEq, Repr

/-- A node of the constructed scene: the ambient light, the directional
light and the ground plane added by `initThree`, and the model root added
by the loader's success callback. -/
inductive SceneNode where
  | ambientLight
  | directionalLight
  | groundPlane
  | model (nodes : List GLTFNode)
deriving DecidableEq, Repr

/-- The component's mutable state: the `shallowRef`s of `App.vue`, the
`animationFrameId` variable, plus instrumentation for the scheduler
(`nextFrameId` counts `requestAnimationFrame` calls) and the GPU
(`drawCalls` counts `renderer.render` calls).  `resizeListener` records
whether the window resize listener is registered. -/
structure AppState where
  scene : Option (List SceneNode)
  camera : Option Camera
  renderer : Option Renderer
  innerDisplay : Option MeshNode
  outerDisplay : Option MeshNode
  screen : Option MeshNode
  animationFrameId : Option ℕ
  nextFrameId : ℕ
  drawCalls : ℕ
  resizeListener : Bool
deriving DecidableEq, Repr

/-- The exact rational value of the IEEE-754 double `Math.PI`
(`884279719003555 · 2⁻⁴⁸ ≈ 3.14159265358979311599…`). -/
def mathPI : ℚ := 884279719003555 / 281474976710656

/-- `const rotationSpeed = 0.005` (App.vue line 147). -/
def rotationSpeed : ℚ := 5 / 1000

/-- The clamp floor `-Math.PI / 2 + 0.05` of the rotation guard
(App.vue line 149). -/
def rotFloor : ℚ := -mathPI / 2 + 5 / 100

/-- One frame's worth of the hinge rotation update (App.vue lines 149-151):
`if (innerDisplay.value.rotation.x > -Math.PI / 2 + 0.05) rotation.x -= rotationSpeed`. -/
def stepRotation (x : ℚ) : ℚ :=
  if x > rotFloor then x - rotationSpeed else x

/-- The rotation block of `animate` (App.vue lines 146-156): if the inner
display handle exists, step its x rotation, then copy the resulting value
into the outer display and screen handles when each exists. -/
def animateMutation (s : AppState) : AppState :=
  match s.innerDisplay with
  | none => s
  | some inner =>
    let inner' : MeshNode := { inner with rotationX := stepRotation inner.rotationX }
    { s with
      innerDisplay := some inner'
      outerDisplay := s.outerDisplay.map fun o => { o with rotationX := inner'.rotationX }
      screen := s.screen.map fun c => { c with rotationX := inner'.rotationX } }

/-- `animationFrameId = requestAnimationFrame(animate)` (App.vue line 143):
the scheduler hands out the next frame id, which is stored. -/
def scheduleFrame (s : AppState) : AppState :=
  { s with
    animationFrameId := some s.nextFrameId
    nextFrameId := s.nextFrameId + 1 }

/-- The presentation step of `animate` (App.vue lines 162-164): issue one
draw call when both scene and camera exist, otherwise skip drawing. -/
def renderStep (s : AppState) : AppState :=
  match s.scene, s.camera with
  | some _, some _ => { s with drawCalls := s.drawCalls + 1 }
  | _, _ => s

/-- The frame callback `animate` (App.vue lines 139-165): return at once if
the renderer reference is gone; otherwise reschedule via
`requestAnimationFrame`, run the rotation block, and issue one draw call
when both scene and camera exist. -/
def animate (s : AppState) : AppState :=
  match s.renderer with
  | none => s
  | some _ => renderStep (animateMutation (scheduleFrame s))

/-- `handleResize` (App.vue lines 129-136), applied at a viewport of size
`w × h` with device pixel ratio `dpr`: when both camera and renderer
exist, set the camera aspect to `w / h` and the renderer size and pixel
ratio; otherwise do nothing. -/
def handleResize (w h dpr : ℚ) (s : AppState) : AppState :=
  match s.camera, s.renderer with
  | some c, some r =>
    { s with
      camera := some { c with aspect := w / h }
      renderer := some { r with width := w, height := h, pixelRatio := dpr } }
  | _, _ => s

/-- The body of the `model.traverse` callback (App.vue lines 91-109) for a
single node: meshes get their shadow flags enabled and are recorded into
the matching named handle (exact, case-sensitive name comparison);
non-mesh nodes are ignored. -/
def traverseStep (st : AppState) (node : GLTFNode) : AppState :=
  match node with
  | .other => st
  | .mesh m =>
    let m' : MeshNode := { m with castShadow := true, receiveShadow := true }
    if m.name = "laptop_inner_display" then { st with innerDisplay := some m' }
    else if m.name = "laptop_outer_display" then { st with outerDisplay := some m' }
    else if m.name = "laptop_screen" then { st with screen := some m' }
    else st

/-- `model.traverse(...)` visits every node of the loaded graph in order,
applying `traverseStep` to each. -/
def traverseRecord (nodes : List GLTFNode) (s : AppState) : AppState :=
  nodes.foldl traverseStep s

/-- The loader's success callback (App.vue lines 87-115): traverse the
model recording named handles, attach the model root to the scene when the
scene reference still exists (`scene.value?.add(model)` — optional
chaining), then call `animate()` to start the loop. -/
def onLoadSuccess (nodes : List GLTFNode) (s : AppState) : AppState :=
  let s1 := traverseRecord nodes s
  let s2 :=
    match s1.scene with
    | some ns => { s1 with scene := some (ns ++ [SceneNode.model nodes]) }
    | none => s1
  animate s2

/-- The loader's error callback (App.vue lines 119-121): it only logs, so
the component state is unchanged; in particular `animate()` is never
called from it. -/
def onLoadError (s : AppState) : AppState :=
  s

/-- Outcome of the asynchronous GLTF load. -/
inductive LoadResult where
  | success (nodes : List GLTFNode)
  | failure
deriving DecidableEq, Repr

/-- The synchronous part of `initThree` (App.vue lines 32-83, 124-125):
build scene (ambient light, directional light, ground plane), camera with
aspect `w / h`, renderer sized `w × h` at ratio `dpr`, and register the
resize listener.  The model is not part of the scene yet and the loop is
not started. -/
def buildScene (w h dpr : ℚ) (s : AppState) : AppState :=
  { s with
    scene := some [SceneNode.ambientLight, SceneNode.directionalLight, SceneNode.groundPlane]
    camera := some { aspect := w / h }
    renderer := some { width := w, height := h, pixelRatio := dpr }
    resizeListener := true }

/-- `initThree` (App.vue lines 26-126) with the load outcome made explicit:
abort if the canvas is missing; otherwise build the scene and then run the
loader callback that the outcome selects. -/
def initThree (canvas : Bool) (w h dpr : ℚ) (res : LoadResult) (s : AppState) : AppState :=
  if !canvas then s
  else
    let s1 := buildScene w h dpr s
    match res with
    | .success nodes => onLoadSuccess nodes s1
    | .failure => onLoadError s1

/-- The `onUnmounted` teardown (App.vue lines 173-215): cancel the pending
frame (a scheduler effect, not a state field — the `animationFrameId`
variable itself is not nulled by the source), remove the resize listener,
dispose GPU resources (no modelled state), and null every reference. -/
def onUnmounted (s : AppState) : AppState :=
  { s with
    resizeListener := false
    scene := none
    camera := none
    renderer := none
    innerDisplay := none
    outerDisplay := none
    screen := none }

/-- The component state before `onMounted` runs: every reference null,
nothing scheduled, nothing drawn. -/
def initState : AppState where
  scene := none
  camera := none
  renderer := none
  innerDisplay := none
  outerDisplay := none
  screen := none
  animationFrameId := none
  nextFrameId := 0
  drawCalls := 0
  resizeListener := false

/-- The x rotation currently held by the inner display handle, when the
handle exists. -/
def innerRotX (s : AppState) : Option ℚ :=
  s.innerDisplay.map MeshNode.rotationX

/-- A post-load running state used to evaluate claims on concrete inputs:
renderer, scene and camera live, all three named handles present with
x rotation `x`. -/
def testState (x : ℚ) : AppState where
  scene := some [SceneNode.ambientLight, SceneNode.directionalLight, SceneNode.groundPlane,
    SceneNode.model []]
  camera := some { aspect := 4 / 3 }
  renderer := some { width := 800, height := 600, pixelRatio := 1 }
  innerDisplay := some ⟨"laptop_inner_display", x, true, true⟩
  outerDisplay := some ⟨"laptop_outer_display", x, true, true⟩
  screen := some ⟨"laptop_screen", x, true, true⟩
  animationFrameId := some 0
  nextFrameId := 1
  drawCalls := 1
  resizeListener := true

/-- The x rotation currently held by the outer display handle, when the
handle exists. -/
def outerRotX (s : AppState) : Option ℚ :=
  s.outerDisplay.map MeshNode.rotationX

/-- The x rotation currently held by the screen handle, when the handle
exists. -/
def screenRotX (s : AppState) : Option ℚ :=
  s.screen.map MeshNode.rotationX

/-- Whether a scene node is the ambient light. -/
def SceneNode.isAmbientLight : SceneNode → Bool
  | .ambientLight => true
  | _ => false

/-- Whether a scene node is the directional light. -/
def SceneNode.isDirectionalLight : SceneNode → Bool
  | .directionalLight => true
  | _ => false

/-- Whether a scene node is the ground plane. -/
def SceneNode.isGroundPlane : SceneNode → Bool
  | .groundPlane => true
  | _ => false

/-- Whether a scene node is a loaded model root. -/
def SceneNode.isModel : SceneNode → Bool
  | .model _ => true
  | _ => false

/-- Number of scene nodes satisfying `p` (zero when the scene reference is
null). -/
def countNodes (p : SceneNode → Bool) (s : AppState) : ℕ :=
  match s.scene with
  | none => 0
  | some ns => ns.countP p

/-- Specification-side description of what the traversal records: the last
mesh named `nm` in traversal order, if any. -/
def lastMeshNamed (nm : String) : List GLTFNode → Option MeshNode
  | [] => none
  | .mesh m :: rest =>
    match lastMeshNamed nm rest with
    | some m' => some m'
    | none => if m.name = nm then some m else none
  | .other :: rest => lastMeshNamed nm rest

/-- The shadow flags the traversal callback enables on every visited mesh. -/
def withShadows (m : MeshNode) : MeshNode :=
  { m with castShadow := true, receiveShadow := true }


/-! ### Projection lemmas for the component operations -/

@[simp] theorem scheduleFrame_scene (s : AppState) : (scheduleFrame s).scene = s.scene := rfl
@[simp] theorem scheduleFrame_camera (s : AppState) : (scheduleFrame s).camera = s.camera := rfl
@[simp] theorem scheduleFrame_renderer (s : AppState) : (scheduleFrame s).renderer = s.renderer := rfl
@[simp] theorem scheduleFrame_innerDisplay (s : AppState) :
    (scheduleFrame s).innerDisplay = s.innerDisplay := rfl
@[simp] theorem scheduleFrame_outerDisplay (s : AppState) :
    (scheduleFrame s).outerDisplay = s.outerDisplay := rfl
@[simp] theorem scheduleFrame_screen (s : AppState) : (scheduleFrame s).screen = s.screen := rfl
@[simp] theorem scheduleFrame_nextFrameId (s : AppState) :
    (scheduleFrame s).nextFrameId = s.nextFrameId + 1 := rfl
@[simp] theorem scheduleFrame_animationFrameId (s : AppState) :
    (scheduleFrame s).animationFrameId = some s.nextFrameId := rfl
@[simp] theorem scheduleFrame_drawCalls (s : AppState) :
    (scheduleFrame s).drawCalls = s.drawCalls := rfl

@[simp] theorem renderStep_scene (s : AppState) : (renderStep s).scene = s.scene := by
  unfold renderStep; split <;> rfl

@[simp] theorem renderStep_camera (s : AppState) : (renderStep s).camera = s.camera := by
  unfold renderStep; split <;> rfl

@[simp] theorem renderStep_renderer (s : AppState) : (renderStep s).renderer = s.renderer := by
  unfold renderStep; split <;> rfl

@[simp] theorem renderStep_innerDisplay (s : AppState) :
    (renderStep s).innerDisplay = s.innerDisplay := by
  unfold renderStep; split <;> rfl

@[simp] theorem renderStep_outerDisplay (s : AppState) :
    (renderStep s).outerDisplay = s.outerDisplay := by
  unfold renderStep; split <;> rfl

@[simp] theorem renderStep_screen (s : AppState) : (renderStep s).screen = s.screen := by
  unfold renderStep; split <;> rfl

@[simp] theorem renderStep_nextFrameId (s : AppState) :
    (renderStep s).nextFrameId = s.nextFrameId := by
  unfold renderStep; split <;> rfl

@[simp] theorem renderStep_animationFrameId (s : AppState) :
    (renderStep s).animationFrameId = s.animationFrameId := by
  unfold renderStep; split <;> rfl

@[simp] theorem animateMutation_scene (s : AppState) : (animateMutation s).scene = s.scene := by
  unfold animateMutation; split <;> rfl

@[simp] theorem animateMutation_camera (s : AppState) : (animateMutation s).camera = s.camera := by
  unfold animateMutation; split <;> rfl

@[simp] theorem animateMutation_renderer (s : AppState) :
    (animateMutation s).renderer = s.renderer := by
  unfold animateMutation; split <;> rfl

@[simp] theorem animateMutation_nextFrameId (s : AppState) :
    (animateMutation s).nextFrameId = s.nextFrameId := by
  unfold animateMutation; split <;> rfl

@[simp] theorem animateMutation_animationFrameId (s : AppState) :
    (animateMutation s).animationFrameId = s.animationFrameId := by
  unfold animateMutation; split <;> rfl

@[simp] theorem animateMutation_drawCalls (s : AppState) :
    (animateMutation s).drawCalls = s.drawCalls := by
  unfold animateMutation; split <;> rfl

theorem animateMutation_innerDisplay (s : AppState) :
    (animateMutation s).innerDisplay =
      s.innerDisplay.map fun i => { i with rotationX := stepRotation i.rotationX } := by
  unfold animateMutation; split <;> simp_all

theorem animateMutation_outerDisplay (s : AppState) (inner : MeshNode)
    (hi : s.innerDisplay = some inner) :
    (animateMutation s).outerDisplay =
      s.outerDisplay.map fun o => { o with rotationX := stepRotation inner.rotationX } := by
  unfold animateMutation; split <;> simp_all

theorem animateMutation_screen (s : AppState) (inner : MeshNode)
    (hi : s.innerDisplay = some inner) :
    (animateMutation s).screen =
      s.screen.map fun c => { c with rotationX := stepRotation inner.rotationX } := by
  unfold animateMutation; split <;> simp_all

theorem animateMutation_outerDisplay_none (s : AppState) (hi : s.innerDisplay = none) :
    (animateMutation s).outerDisplay = s.outerDisplay := by
  unfold animateMutation; split <;> simp_all

theorem animateMutation_screen_none (s : AppState) (hi : s.innerDisplay = none) :
    (animateMutation s).screen = s.screen := by
  unfold animateMutation; split <;> simp_all

/-! ### Behaviour of `animate` -/

theorem animate_of_renderer_none (s : AppState) (hr : s.renderer = none) : animate s = s := by
  unfold animate; rw [hr]

theorem animate_renderer (s : AppState) : (animate s).renderer = s.renderer := by
  unfold animate; split <;> simp_all

theorem animate_scene (s : AppState) : (animate s).scene = s.scene := by
  unfold animate; split <;> simp_all

theorem animate_camera (s : AppState) : (animate s).camera = s.camera := by
  unfold animate; split <;> simp_all

theorem animate_innerDisplay (s : AppState) (r : Renderer) (hr : s.renderer = some r) :
    (animate s).innerDisplay =
      s.innerDisplay.map fun i => { i with rotationX := stepRotation i.rotationX } := by
  unfold animate; rw [hr]
  simp [renderStep_innerDisplay, animateMutation_innerDisplay]

theorem animate_outerDisplay (s : AppState) (r : Renderer) (inner : MeshNode)
    (hr : s.renderer = some r) (hi : s.innerDisplay = some inner) :
    (animate s).outerDisplay =
      s.outerDisplay.map fun o => { o with rotationX := stepRotation inner.rotationX } := by
  unfold animate; rw [hr]
  rw [renderStep_outerDisplay, animateMutation_outerDisplay _ inner (by simpa using hi)]
  simp

theorem animate_screen (s : AppState) (r : Renderer) (inner : MeshNode)
    (hr : s.renderer = some r) (hi : s.innerDisplay = some inner) :
    (animate s).screen =
      s.screen.map fun c => { c with rotationX := stepRotation inner.rotationX } := by
  unfold animate; rw [hr]
  rw [renderStep_screen, animateMutation_screen _ inner (by simpa using hi)]
  simp

theorem animate_outerDisplay_of_inner_none (s : AppState) (hi : s.innerDisplay = none) :
    (animate s).outerDisplay = s.outerDisplay := by
  unfold animate; split
  · rfl
  · rw [renderStep_outerDisplay, animateMutation_outerDisplay_none _ (by simpa using hi)]
    simp

theorem animate_screen_of_inner_none (s : AppState) (hi : s.innerDisplay = none) :
    (animate s).screen = s.screen := by
  unfold animate; split
  · rfl
  · rw [renderStep_screen, animateMutation_screen_none _ (by simpa using hi)]
    simp

theorem animate_innerDisplay_of_inner_none (s : AppState) (hi : s.innerDisplay = none) :
    (animate s).innerDisplay = none := by
  unfold animate; split
  · exact hi
  · rw [renderStep_innerDisplay, animateMutation_innerDisplay]
    simp [hi]

theorem animate_nextFrameId (s : AppState) (r : Renderer) (hr : s.renderer = some r) :
    (animate s).nextFrameId = s.nextFrameId + 1 := by
  unfold animate; rw [hr]
  simp

theorem animate_animationFrameId (s : AppState) (r : Renderer) (hr : s.renderer = some r) :
    (animate s).animationFrameId = some s.nextFrameId := by
  unfold animate; rw [hr]
  simp

/-! ### Iterating `animate` -/

theorem animate_iter_renderer (s : AppState) (n : ℕ) :
    (animate^[n] s).renderer = s.renderer := by
  induction n with
  | zero => rfl
  | succ n ih => rw [Function.iterate_succ_apply', animate_renderer, ih]

theorem animate_iter_innerDisplay (s : AppState) (r : Renderer) (inner : MeshNode)
    (hr : s.renderer = some r) (hi : s.innerDisplay = some inner) (n : ℕ) :
    (animate^[n] s).innerDisplay =
      some { inner with rotationX := stepRotation^[n] inner.rotationX } := by
  induction n with
  | zero => simpa using hi
  | succ n ih =>
    rw [Function.iterate_succ_apply',
      animate_innerDisplay _ r (by rw [animate_iter_renderer, hr]), ih,
      Function.iterate_succ_apply']
    rfl

theorem animate_iter_innerRotX (s : AppState) (r : Renderer) (inner : MeshNode)
    (hr : s.renderer = some r) (hi : s.innerDisplay = some inner) (n : ℕ) :
    innerRotX (animate^[n] s) = some (stepRotation^[n] inner.rotationX) := by
  rw [innerRotX, animate_iter_innerDisplay s r inner hr hi n]
  rfl

theorem animate_iter_linkage (s : AppState) (r : Renderer) (inner outer sc : MeshNode)
    (hr : s.renderer = some r) (hi : s.innerDisplay = some inner)
    (ho : s.outerDisplay = some outer) (hs : s.screen = some sc) (n : ℕ) :
    (animate^[n + 1] s).outerDisplay =
        some { outer with rotationX := stepRotation^[n + 1] inner.rotationX } ∧
      (animate^[n + 1] s).screen =
        some { sc with rotationX := stepRotation^[n + 1] inner.rotationX } := by
  induction n with
  | zero =>
    rw [Function.iterate_one]
    rw [animate_outerDisplay _ r inner hr hi, animate_screen _ r inner hr hi, ho, hs]
    simp [Function.iterate_one]
  | succ n ih =>
    have hr' : (animate^[n + 1] s).renderer = some r := by rw [animate_iter_renderer, hr]
    have hi' := animate_iter_innerDisplay s r inner hr hi (n + 1)
    constructor
    · rw [Function.iterate_succ_apply',
        animate_outerDisplay _ r _ hr' hi', ih.1, Function.iterate_succ_apply' stepRotation (n + 1)]
      rfl
    · rw [Function.iterate_succ_apply',
        animate_screen _ r _ hr' hi', ih.2, Function.iterate_succ_apply' stepRotation (n + 1)]
      rfl

/-! ### Arithmetic facts about the clamped rotation step -/

theorem rotationSpeed_pos : 0 < rotationSpeed := by norm_num [rotationSpeed]

theorem rotFloor_bounds : -1521/1000 < rotFloor ∧ rotFloor < -152/100 := by
  constructor <;> norm_num [rotFloor, mathPI]

theorem stepRotation_le (x : ℚ) : stepRotation x ≤ x := by
  unfold stepRotation; split
  · have := rotationSpeed_pos; linarith
  · exact le_refl x

theorem stepRotation_iter_le (x : ℚ) (n : ℕ) : stepRotation^[n] x ≤ x := by
  induction n with
  | zero => simp
  | succ n ih =>
    calc stepRotation^[n + 1] x = stepRotation (stepRotation^[n] x) := by
          rw [Function.iterate_succ_apply']
      _ ≤ stepRotation^[n] x := stepRotation_le _
      _ ≤ x := ih

theorem stepRotation_iter_anti (x : ℚ) (m n : ℕ) (h : m ≤ n) :
    stepRotation^[n] x ≤ stepRotation^[m] x := by
  obtain ⟨k, rfl⟩ := Nat.exists_eq_add_of_le h
  rw [Nat.add_comm m k, Function.iterate_add_apply]
  exact stepRotation_iter_le _ k

theorem stepRotation_fixed (x : ℚ) (h : x ≤ rotFloor) : stepRotation x = x :=
  if_neg (not_lt.2 h)

theorem stepRotation_iter_fixed (x : ℚ) (h : x ≤ rotFloor) (n : ℕ) :
    stepRotation^[n] x = x := by
  induction n with
  | zero => rfl
  | succ n ih => rw [Function.iterate_succ_apply', ih, stepRotation_fixed x h]

theorem stepRotation_bound (x : ℚ) (h : rotFloor - rotationSpeed < x) :
    rotFloor - rotationSpeed < stepRotation x := by
  unfold stepRotation; split
  · next hgt => linarith
  · exact h

theorem stepRotation_iter_bound (x : ℚ) (h : rotFloor - rotationSpeed < x) (n : ℕ) :
    rotFloor - rotationSpeed < stepRotation^[n] x := by
  induction n with
  | zero => exact h
  | succ n ih => rw [Function.iterate_succ_apply']; exact stepRotation_bound _ ih

theorem guard_holds_of_le_304 (n : ℕ) (h : n ≤ 304) :
    rotFloor < -(n : ℚ) * rotationSpeed := by
  have hn : (n : ℚ) ≤ 304 := by exact_mod_cast h
  have h2 := rotFloor_bounds.2
  simp only [rotationSpeed]
  linarith

theorem stepRotation_iter_zero (n : ℕ) (h : n ≤ 305) :
    stepRotation^[n] 0 = -(n : ℚ) * rotationSpeed := by
  induction n with
  | zero => simp
  | succ n ih =>
    have hn : n ≤ 304 := by omega
    rw [Function.iterate_succ_apply', ih (by omega)]
    rw [stepRotation, if_pos (guard_holds_of_le_304 n hn)]
    push_cast
    ring

/-! ### The loader traversal -/

theorem traverseStep_scene (st : AppState) (node : GLTFNode) :
    (traverseStep st node).scene = st.scene := by
  cases node with
  | other => rfl
  | mesh m => simp only [traverseStep]; split_ifs <;> rfl

theorem traverseStep_camera (st : AppState) (node : GLTFNode) :
    (traverseStep st node).camera = st.camera := by
  cases node with
  | other => rfl
  | mesh m => simp only [traverseStep]; split_ifs <;> rfl

theorem traverseStep_renderer (st : AppState) (node : GLTFNode) :
    (traverseStep st node).renderer = st.renderer := by
  cases node with
  | other => rfl
  | mesh m => simp only [traverseStep]; split_ifs <;> rfl

theorem traverseStep_animationFrameId (st : AppState) (node : GLTFNode) :
    (traverseStep st node).animationFrameId = st.animationFrameId := by
  cases node with
  | other => rfl
  | mesh m => simp only [traverseStep]; split_ifs <;> rfl

theorem traverseStep_nextFrameId (st : AppState) (node : GLTFNode) :
    (traverseStep st node).nextFrameId = st.nextFrameId := by
  cases node with
  | other => rfl
  | mesh m => simp only [traverseStep]; split_ifs <;> rfl

theorem traverseStep_drawCalls (st : AppState) (node : GLTFNode) :
    (traverseStep st node).drawCalls = st.drawCalls := by
  cases node with
  | other => rfl
  | mesh m => simp only [traverseStep]; split_ifs <;> rfl

theorem traverseRecord_scene (nodes : List GLTFNode) (s : AppState) :
    (traverseRecord nodes s).scene = s.scene := by
  induction nodes generalizing s with
  | nil => rfl
  | cons node rest ih =>
    simp only [traverseRecord, List.foldl_cons] at *
    rw [ih, traverseStep_scene]

theorem traverseRecord_camera (nodes : List GLTFNode) (s : AppState) :
    (traverseRecord nodes s).camera = s.camera := by
  induction nodes generalizing s with
  | nil => rfl
  | cons node rest ih =>
    simp only [traverseRecord, List.foldl_cons] at *
    rw [ih, traverseStep_camera]

theorem traverseRecord_renderer (nodes : List GLTFNode) (s : AppState) :
    (traverseRecord nodes s).renderer = s.renderer := by
  induction nodes generalizing s with
  | nil => rfl
  | cons node rest ih =>
    simp only [traverseRecord, List.foldl_cons] at *
    rw [ih, traverseStep_renderer]

theorem traverseRecord_animationFrameId (nodes : List GLTFNode) (s : AppState) :
    (traverseRecord nodes s).animationFrameId = s.animationFrameId := by
  induction nodes generalizing s with
  | nil => rfl
  | cons node rest ih =>
    simp only [traverseRecord, List.foldl_cons] at *
    rw [ih, traverseStep_animationFrameId]

theorem traverseRecord_nextFrameId (nodes : List GLTFNode) (s : AppState) :
    (traverseRecord nodes s).nextFrameId = s.nextFrameId := by
  induction nodes generalizing s with
  | nil => rfl
  | cons node rest ih =>
    simp only [traverseRecord, List.foldl_cons] at *
    rw [ih, traverseStep_nextFrameId]

theorem traverseRecord_drawCalls (nodes : List GLTFNode) (s : AppState) :
    (traverseRecord nodes s).drawCalls = s.drawCalls := by
  induction nodes generalizing s with
  | nil => rfl
  | cons node rest ih =>
    simp only [traverseRecord, List.foldl_cons] at *
    rw [ih, traverseStep_drawCalls]

theorem traverseRecord_innerDisplay (nodes : List GLTFNode) (s : AppState) :
    (traverseRecord nodes s).innerDisplay =
      match lastMeshNamed "laptop_inner_display" nodes with
      | some m => some (withShadows m)
      | none => s.innerDisplay := by
  induction nodes generalizing s with
  | nil => rfl
  | cons node rest ih =>
    cases node with
    | other =>
      simp only [traverseRecord, List.foldl_cons] at *
      rw [ih]
      rfl
    | mesh m =>
      simp only [traverseRecord, List.foldl_cons] at *
      rw [ih]
      cases hrest : lastMeshNamed "laptop_inner_display" rest with
      | some mr => simp [lastMeshNamed, hrest]
      | none =>
        by_cases h1 : m.name = "laptop_inner_display"
        · simp [lastMeshNamed, hrest, h1, traverseStep, withShadows]
        · simp only [lastMeshNamed, hrest, h1, if_false]
          simp only [traverseStep, h1]
          split_ifs <;> simp_all

theorem traverseRecord_outerDisplay (nodes : List GLTFNode) (s : AppState) :
    (traverseRecord nodes s).outerDisplay =
      match lastMeshNamed "laptop_outer_display" nodes with
      | some m => some (withShadows m)
      | none => s.outerDisplay := by
  induction nodes generalizing s with
  | nil => rfl
  | cons node rest ih =>
    cases node with
    | other =>
      simp only [traverseRecord, List.foldl_cons] at *
      rw [ih]
      rfl
    | mesh m =>
      simp only [traverseRecord, List.foldl_cons] at *
      rw [ih]
      cases hrest : lastMeshNamed "laptop_outer_display" rest with
      | some mr => simp [lastMeshNamed, hrest]
      | none =>
        by_cases h1 : m.name = "laptop_outer_display"
        · simp [lastMeshNamed, hrest, h1, traverseStep, withShadows]
        · simp only [lastMeshNamed, hrest, h1, if_false]
          simp only [traverseStep]
          split_ifs <;> simp_all

theorem traverseRecord_screen (nodes : List GLTFNode) (s : AppState) :
    (traverseRecord nodes s).screen =
      match lastMeshNamed "laptop_screen" nodes with
      | some m => some (withShadows m)
      | none => s.screen := by
  induction nodes generalizing s with
  | nil => rfl
  | cons node rest ih =>
    cases node with
    | other =>
      simp only [traverseRecord, List.foldl_cons] at *
      rw [ih]
      rfl
    | mesh m =>
      simp only [traverseRecord, List.foldl_cons] at *
      rw [ih]
      cases hrest : lastMeshNamed "laptop_screen" rest with
      | some mr => simp [lastMeshNamed, hrest]
      | none =>
        by_cases h1 : m.name = "laptop_screen"
        · simp [lastMeshNamed, hrest, h1, traverseStep, withShadows]
        · simp only [lastMeshNamed, hrest, h1, if_false]
          simp only [traverseStep]
          split_ifs <;> simp_all

theorem animate_outerDisplay_none (s : AppState) (ho : s.outerDisplay = none) :
    (animate s).outerDisplay = none := by
  unfold animate; split
  · exact ho
  · rw [renderStep_outerDisplay]
    unfold animateMutation
    split <;> simp_all

theorem animate_screen_none (s : AppState) (hs : s.screen = none) :
    (animate s).screen = none := by
  unfold animate; split
  · exact hs
  · rw [renderStep_screen]
    unfold animateMutation
    split <;> simp_all

/-! ### Lifecycle lemmas -/

theorem onLoadSuccess_nextFrameId (nodes : List GLTFNode) (s : AppState) (r : Renderer)
    (hr : s.renderer = some r) :
    (onLoadSuccess nodes s).nextFrameId = s.nextFrameId + 1 := by
  simp only [onLoadSuccess]
  split
  · next ns heq =>
    have hr2 : ({ traverseRecord nodes s with
        scene := some (ns ++ [SceneNode.model nodes]) } : AppState).renderer = some r := by
      show (traverseRecord nodes s).renderer = some r
      rw [traverseRecord_renderer]
      exact hr
    rw [animate_nextFrameId _ r hr2]
    show (traverseRecord nodes s).nextFrameId + 1 = s.nextFrameId + 1
    rw [traverseRecord_nextFrameId]
  · have hr2 : (traverseRecord nodes s).renderer = some r := by
      rw [traverseRecord_renderer]
      exact hr
    rw [animate_nextFrameId _ r hr2, traverseRecord_nextFrameId]

theorem onLoadSuccess_of_torn (nodes : List GLTFNode) (s : AppState)
    (hsc : s.scene = none) (hr : s.renderer = none) :
    onLoadSuccess nodes s = traverseRecord nodes s := by
  have h1 : (traverseRecord nodes s).scene = none := by rw [traverseRecord_scene, hsc]
  have h2 : (traverseRecord nodes s).renderer = none := by rw [traverseRecord_renderer, hr]
  simp only [onLoadSuccess, h1]
  exact animate_of_renderer_none _ h2

/-! ### The claims -/

/-- C1: for every frame count `N ≥ 0` after the asset load completes (so
that all three named handles exist and the renderer is live), immediately
after the render loop's frame-`N` update step the x rotations of the outer
display, inner display and screen handles are all equal. -/
theorem claim1_rotation_linkage (s : AppState) (r : Renderer) (inner outer sc : MeshNode)
    (hr : s.renderer = some r) (hi : s.innerDisplay = some inner)
    (ho : s.outerDisplay = some outer) (hs : s.screen = some sc) (n : ℕ) :
    ∃ v : ℚ, innerRotX (animate^[n + 1] s) = some v ∧
      outerRotX (animate^[n + 1] s) = some v ∧ screenRotX (animate^[n + 1] s) = some v := by
  refine ⟨stepRotation^[n + 1] inner.rotationX, ?_, ?_, ?_⟩
  · exact animate_iter_innerRotX s r inner hr hi (n + 1)
  · rw [outerRotX, (animate_iter_linkage s r inner outer sc hr hi ho hs n).1]
    rfl
  · rw [screenRotX, (animate_iter_linkage s r inner outer sc hr hi ho hs n).2]
    rfl

/-- Witness for C1 at a concrete post-load state and frame 0. -/
theorem claim1_rotation_linkage_witness :
    ∃ v : ℚ, innerRotX (animate^[0 + 1] (testState 0)) = some v ∧
      outerRotX (animate^[0 + 1] (testState 0)) = some v ∧
      screenRotX (animate^[0 + 1] (testState 0)) = some v :=
  claim1_rotation_linkage (testState 0) ⟨800, 600, 1⟩
    ⟨"laptop_inner_display", 0, true, true⟩ ⟨"laptop_outer_display", 0, true, true⟩
    ⟨"laptop_screen", 0, true, true⟩ rfl rfl rfl rfl 0

/-- C2 counterexample: starting the inner display at rotation 0 in a live
post-load state, after frame update 305 the rotation is `-61/40 = -1.525`,
which is strictly below the claimed floor — both below the code's constant
`rotFloor = -Math.PI/2 + 0.05` and below the exact-π floor `-π/2 + 0.05`.
So "innerDisplay.rotation.x ≥ -π/2 + 0.05 after every frame update" is
false. -/
theorem claim2_floor_counterexample :
    innerRotX (animate^[305] (testState 0)) = some (-(61/40)) ∧
      ¬ (rotFloor ≤ -(61/40 : ℚ)) ∧
      ¬ ((-Real.pi / 2 + 5/100 : ℝ) ≤ -(61/40 : ℝ)) := by
  refine ⟨?_, ?_, ?_⟩
  · rw [animate_iter_innerRotX (testState 0) ⟨800, 600, 1⟩
      ⟨"laptop_inner_display", 0, true, true⟩ rfl rfl 305,
      stepRotation_iter_zero 305 (by norm_num)]
    norm_num [rotationSpeed]
  · norm_num [rotFloor, mathPI]
  · have hpi := Real.pi_lt_d2
    intro hcontra
    norm_num at hcontra
    linarith

/-- C2 (amended): the inner display's x rotation is non-increasing across
frames; and whenever the initial rotation is above `rotFloor -
rotationSpeed` (the stated floor minus one step), every frame update
leaves it strictly above `rotFloor - rotationSpeed`.  The code's strict
`>` guard permits exactly one decrement below the stated floor, so the
stated bound `≥ rotFloor` itself does not hold. -/
theorem claim2_amended_monotone_bounded (s : AppState) (r : Renderer) (inner : MeshNode)
    (hr : s.renderer = some r) (hi : s.innerDisplay = some inner) :
    (∀ m n : ℕ, m ≤ n → ∀ xm xn : ℚ, innerRotX (animate^[m] s) = some xm →
        innerRotX (animate^[n] s) = some xn → xn ≤ xm) ∧
      (rotFloor - rotationSpeed < inner.rotationX →
        ∀ (n : ℕ) (x : ℚ), innerRotX (animate^[n] s) = some x →
          rotFloor - rotationSpeed < x) := by
  constructor
  · intro m n hmn xm xn hm hn
    rw [animate_iter_innerRotX s r inner hr hi m] at hm
    rw [animate_iter_innerRotX s r inner hr hi n] at hn
    rw [← Option.some.inj hm, ← Option.some.inj hn]
    exact stepRotation_iter_anti inner.rotationX m n hmn
  · intro hbound n x hx
    rw [animate_iter_innerRotX s r inner hr hi n] at hx
    rw [← Option.some.inj hx]
    exact stepRotation_iter_bound inner.rotationX hbound n

/-- Witness for C2 (amended) at a concrete post-load state: the rotation
after frame 1 is `-1/200`, which is at most the initial rotation 0 and
strictly above `rotFloor - rotationSpeed`. -/
theorem claim2_amended_monotone_bounded_witness :
    (-(1/200) : ℚ) ≤ 0 ∧ rotFloor - rotationSpeed < -(1/200 : ℚ) := by
  have hmain := claim2_amended_monotone_bounded (testState 0) ⟨800, 600, 1⟩
    ⟨"laptop_inner_display", 0, true, true⟩ rfl rfl
  have h1 : innerRotX (animate^[1] (testState 0)) = some (-(1/200)) := by
    rw [animate_iter_innerRotX (testState 0) ⟨800, 600, 1⟩
      ⟨"laptop_inner_display", 0, true, true⟩ rfl rfl 1,
      stepRotation_iter_zero 1 (by norm_num)]
    norm_num [rotationSpeed]
  exact ⟨hmain.1 0 1 (by norm_num) 0 (-(1/200)) rfl h1,
    hmain.2 (by norm_num [rotFloor, mathPI, rotationSpeed]) 1 (-(1/200)) h1⟩

/-- C3: starting from inner rotation 0.0 with the per-frame step 0.005,
after exactly 1 frame update the rotation is `-0.005 = -5/1000`, and after
exactly 100 frame updates (the clamp floor never being reached) it is
`-0.5 = -1/2`. -/
theorem claim3_exact_values :
    innerRotX (animate^[1] (testState 0)) = some (-(5/1000)) ∧
      innerRotX (animate^[100] (testState 0)) = some (-(1/2)) := by
  constructor
  · rw [animate_iter_innerRotX (testState 0) ⟨800, 600, 1⟩
      ⟨"laptop_inner_display", 0, true, true⟩ rfl rfl 1,
      stepRotation_iter_zero 1 (by norm_num)]
    norm_num [rotationSpeed]
  · rw [animate_iter_innerRotX (testState 0) ⟨800, 600, 1⟩
      ⟨"laptop_inner_display", 0, true, true⟩ rfl rfl 100,
      stepRotation_iter_zero 100 (by norm_num)]
    norm_num [rotationSpeed]

/-- C4: once the inner display's rotation is at or below the floor
`rotFloor = -Math.PI/2 + 0.05`, every further frame update leaves it
unchanged (the update is idempotent beyond the floor). -/
theorem claim4_floor_idempotent (s : AppState) (inner : MeshNode)
    (hi : s.innerDisplay = some inner) (hfloor : inner.rotationX ≤ rotFloor) (n : ℕ) :
    innerRotX (animate^[n] s) = some inner.rotationX := by
  cases hr : s.renderer with
  | none =>
    rw [Function.iterate_fixed (animate_of_renderer_none s hr) n, innerRotX, hi]
    rfl
  | some r =>
    rw [animate_iter_innerRotX s r inner hr hi n, stepRotation_iter_fixed _ hfloor]

/-- Witness for C4 at a concrete state resting at rotation `-2`, which is
below the floor: three further frame updates leave it at `-2`. -/
theorem claim4_floor_idempotent_witness :
    innerRotX (animate^[3] (testState (-2))) = some (-2) :=
  claim4_floor_idempotent (testState (-2)) ⟨"laptop_inner_display", -2, true, true⟩
    rfl (by norm_num [rotFloor, mathPI]) 3

/-- C5: after teardown has run (all references cleared, in particular the
renderer), an already-queued invocation of the frame callback leaves the
state completely unchanged: no scene-node mutation, no draw, and no
rescheduling. -/
theorem claim5_teardown_noop (s : AppState) : animate (onUnmounted s) = onUnmounted s :=
  animate_of_renderer_none _ rfl

/-- C6: when the asset load fails, the scene after initialization contains
exactly 1 ambient light, 1 directional light, 1 ground plane and 0 model
nodes, nothing was ever scheduled and nothing was drawn; and the render
loop's first schedule happens exactly in the success path (`nextFrameId`
becomes 1 there and stays 0 on failure). -/
theorem claim6_failure_static_scene (w h dpr : ℚ) (nodes : List GLTFNode) :
    countNodes SceneNode.isAmbientLight (initThree true w h dpr .failure initState) = 1 ∧
      countNodes SceneNode.isDirectionalLight (initThree true w h dpr .failure initState) = 1 ∧
      countNodes SceneNode.isGroundPlane (initThree true w h dpr .failure initState) = 1 ∧
      countNodes SceneNode.isModel (initThree true w h dpr .failure initState) = 0 ∧
      (initThree true w h dpr .failure initState).animationFrameId = none ∧
      (initThree true w h dpr .failure initState).nextFrameId = 0 ∧
      (initThree true w h dpr .failure initState).drawCalls = 0 ∧
      (initThree true w h dpr (.success nodes) initState).nextFrameId = 1 := by
  refine ⟨rfl, rfl, rfl, rfl, rfl, rfl, rfl, ?_⟩
  show (onLoadSuccess nodes (buildScene w h dpr initState)).nextFrameId = 1
  rw [onLoadSuccess_nextFrameId nodes _ ⟨w, h, dpr⟩ rfl]
  rfl

/-- C7: a resize while camera and renderer exist sets the camera aspect to
the new `w / h` and the renderer size and pixel ratio to the new viewport
values, and issues no draw call of its own. -/
theorem claim7_resize_updates (w h dpr : ℚ) (s : AppState) (c : Camera) (r : Renderer)
    (hc : s.camera = some c) (hr : s.renderer = some r) :
    (handleResize w h dpr s).camera = some { aspect := w / h } ∧
      (handleResize w h dpr s).renderer = some { width := w, height := h, pixelRatio := dpr } ∧
      (handleResize w h dpr s).drawCalls = s.drawCalls := by
  unfold handleResize
  rw [hc, hr]
  exact ⟨rfl, rfl, rfl⟩

/-- Witness for C7: resizing from the 800 × 600 test state to 1200 × 800
yields camera aspect `1200/800 = 3/2` and renderer size `1200 × 800`. -/
theorem claim7_resize_updates_witness :
    (handleResize 1200 800 1 (testState 0)).camera = some { aspect := 3/2 } ∧
      (handleResize 1200 800 1 (testState 0)).renderer =
        some { width := 1200, height := 800, pixelRatio := 1 } := by
  have hmain := claim7_resize_updates 1200 800 1 (testState 0) ⟨4/3⟩ ⟨800, 600, 1⟩ rfl rfl
  refine ⟨?_, hmain.2.1⟩
  rw [hmain.1]
  simp only [Option.some.injEq, Camera.mk.injEq]
  norm_num

/-- C8: the traversal tolerates zero or several meshes per tracked name —
each handle ends up holding the last matching mesh in traversal order
(with shadow flags enabled), or keeps its previous value when no mesh
matches; and the animation step is a no-op on every absent handle. -/
theorem claim8_traversal_tolerant (nodes : List GLTFNode) (s : AppState) :
    ((traverseRecord nodes s).innerDisplay =
        match lastMeshNamed "laptop_inner_display" nodes with
        | some m => some (withShadows m)
        | none => s.innerDisplay) ∧
      ((traverseRecord nodes s).outerDisplay =
        match lastMeshNamed "laptop_outer_display" nodes with
        | some m => some (withShadows m)
        | none => s.outerDisplay) ∧
      ((traverseRecord nodes s).screen =
        match lastMeshNamed "laptop_screen" nodes with
        | some m => some (withShadows m)
        | none => s.screen) ∧
      (s.innerDisplay = none → (animate s).innerDisplay = none ∧
        (animate s).outerDisplay = s.outerDisplay ∧ (animate s).screen = s.screen) ∧
      (s.outerDisplay = none → (animate s).outerDisplay = none) ∧
      (s.screen = none → (animate s).screen = none) :=
  ⟨traverseRecord_innerDisplay nodes s, traverseRecord_outerDisplay nodes s,
    traverseRecord_screen nodes s,
    fun hi => ⟨animate_innerDisplay_of_inner_none s hi,
      animate_outerDisplay_of_inner_none s hi, animate_screen_of_inner_none s hi⟩,
    animate_outerDisplay_none s, animate_screen_none s⟩

/-- Witness for C8: a model with two meshes named `laptop_inner_display`
and none named `laptop_outer_display` — the inner handle records the
second (last) match with shadows enabled, the outer handle stays absent,
and the frame callback keeps the absent outer handle absent. -/
theorem claim8_traversal_tolerant_witness :
    (traverseRecord [GLTFNode.mesh ⟨"laptop_inner_display", 1, false, false⟩, GLTFNode.other,
        GLTFNode.mesh ⟨"laptop_inner_display", 2, false, false⟩,
        GLTFNode.mesh ⟨"laptop_screen", 3, false, false⟩] initState).innerDisplay =
      some ⟨"laptop_inner_display", 2, true, true⟩ ∧
    (traverseRecord [GLTFNode.mesh ⟨"laptop_inner_display", 1, false, false⟩, GLTFNode.other,
        GLTFNode.mesh ⟨"laptop_inner_display", 2, false, false⟩,
        GLTFNode.mesh ⟨"laptop_screen", 3, false, false⟩] initState).outerDisplay = none ∧
    (animate initState).outerDisplay = none := by
  have hmain := claim8_traversal_tolerant
    [GLTFNode.mesh ⟨"laptop_inner_display", 1, false, false⟩, GLTFNode.other,
      GLTFNode.mesh ⟨"laptop_inner_display", 2, false, false⟩,
      GLTFNode.mesh ⟨"laptop_screen", 3, false, false⟩] initState
  refine ⟨?_, ?_, hmain.2.2.2.2.1 rfl⟩
  · rw [hmain.1]
    rfl
  · rw [hmain.2.1]
    rfl

/-- C9: if the component unmounts before the asset finishes loading, the
late success callback is harmless: the guarded accesses leave the scene
reference null, attach no model, start no loop (nothing scheduled, nothing
drawn) — the only effect is rewriting the handle references, exactly as in
the source. -/
theorem claim9_late_load_safe (s : AppState) (nodes : List GLTFNode) :
    (onLoadSuccess nodes (onUnmounted s)).scene = none ∧
      (onLoadSuccess nodes (onUnmounted s)).renderer = none ∧
      (onLoadSuccess nodes (onUnmounted s)).animationFrameId = s.animationFrameId ∧
      (onLoadSuccess nodes (onUnmounted s)).nextFrameId = s.nextFrameId ∧
      (onLoadSuccess nodes (onUnmounted s)).drawCalls = s.drawCalls := by
  have hE := onLoadSuccess_of_torn nodes (onUnmounted s) rfl rfl
  rw [hE]
  refine ⟨?_, ?_, ?_, ?_, ?_⟩
  · rw [traverseRecord_scene]
    rfl
  · rw [traverseRecord_renderer]
    rfl
  · rw [traverseRecord_animationFrameId]
    rfl
  · rw [traverseRecord_nextFrameId]
    rfl
  · rw [traverseRecord_drawCalls]
    rfl

/-- C10 (implicit): starting from inner rotation 0 in a live post-load
state, after every frame update the rotation stays strictly above
`rotFloor - rotationSpeed` — the floor minus one step is the bound the
strict `>` guard actually preserves. -/
theorem claim10_one_step_below_floor (s : AppState) (r : Renderer) (inner : MeshNode)
    (hr : s.renderer = some r) (hi : s.innerDisplay = some inner)
    (h0 : inner.rotationX = 0) (n : ℕ) (x : ℚ)
    (hx : innerRotX (animate^[n + 1] s) = some x) :
    rotFloor - rotationSpeed < x := by
  rw [animate_iter_innerRotX s r inner hr hi (n + 1), h0] at hx
  rw [← Option.some.inj hx]
  exact stepRotation_iter_bound 0 (by norm_num [rotFloor, mathPI, rotationSpeed]) (n + 1)

/-- Witness for C10 at a concrete post-load state and frame 1. -/
theorem claim10_one_step_below_floor_witness :
    rotFloor - rotationSpeed < -(1/200 : ℚ) := by
  have h1 : innerRotX (animate^[0 + 1] (testState 0)) = some (-(1/200)) := by
    rw [animate_iter_innerRotX (testState 0) ⟨800, 600, 1⟩
      ⟨"laptop_inner_display", 0, true, true⟩ rfl rfl 1,
      stepRotation_iter_zero 1 (by norm_num)]
    norm_num [rotationSpeed]
  exact claim10_one_step_below_floor (testState 0) ⟨800, 600, 1⟩
    ⟨"laptop_inner_display", 0, true, true⟩ rfl rfl rfl 0 (-(1/200)) h1
